import Mathlib

/-!
Shallow embedding of the sensor acquisition pipeline of HerculesPi
(`src/sensors.rs`): the binary decoder `read_sensor_data` / `parse_float`,
device discovery `find_supported_sensor`, the manager facade
(`SensorManager::new/start/get_latest_data/try_receive_update`,
`initialize_sensors`), the bounded crossbeam channel used between the
acquisition loop and the manager, and the acquisition loop body itself.

IEEE-754 binary32 values are represented by their 32-bit patterns
(natural numbers below `2 ^ 32`): `f32::from_bits` is then the identity
on patterns, and the only arithmetic the decoder performs on floats -
division of an exactly-representable `i16` value by the constants
`16384.0` and `131.0` - is modelled by `f32DivBits`, a correctly-rounded
(round-to-nearest, ties-to-even) division on bit patterns.

Timestamps (`Instant::now()`) are modelled by an explicit `now : Nat`
parameter.  Buffers are `List Nat` with entries below 256.
-/

/-- Model of the `SensorData` field type `[f32; 3]`: three binary32 bit
patterns. -/
structure Vec3 where
  x : Nat
  y : Nat
  z : Nat
deriving DecidableEq, Repr

/-- Model of `SensorData` (sensors.rs lines 14-21).  Float fields hold
binary32 bit patterns; `timestamp` is an abstract instant. -/
structure SensorData where
  timestamp : Nat
  acceleration : Vec3
  gyro : Vec3
  orientation : Vec3
  temperature : Nat
deriving DecidableEq, Repr

/-- `SensorData::default()` (sensors.rs lines 23-33): all float fields
zero, timestamp stamped with the current instant `t`. -/
def SensorData.default (t : Nat) : SensorData :=
  { timestamp := t
    acceleration := ⟨0, 0, 0⟩
    gyro := ⟨0, 0, 0⟩
    orientation := ⟨0, 0, 0⟩
    temperature := 0 }

/-- Model of `SensorConfig` (sensors.rs lines 36-42). -/
structure SensorConfig where
  enabled : Bool
  update_interval_ms : Nat
  use_celsius : Bool
deriving DecidableEq, Repr

/-- Model of `SensorError` (sensors.rs lines 55-65). -/
inductive SensorError where
  | NotFound
  | ConnectionFailed (msg : String)
  | ReadError (msg : String)
  | Disconnected
  | InitializationFailed (msg : String)
deriving DecidableEq, Repr

/-- Outcome of `device.read_timeout(&mut buf, 100)` (sensors.rs line
259): either `Ok(size)` together with the 64-byte buffer contents after
the read, or a host I/O error. -/
inductive ReadOutcome where
  | ok (size : Nat) (buf : List Nat)
  | hostError (msg : String)
deriving DecidableEq, Repr

/-- `&buf[a..b]`: the slice of `buf` from index `a` (inclusive) to `b`
(exclusive). -/
def sliceBytes (buf : List Nat) (a b : Nat) : List Nat :=
  (buf.drop a).take (b - a)

/-- Model of `parse_float` (sensors.rs lines 328-339).  Slices shorter
than 4 bytes yield `0.0` (bit pattern 0); otherwise the four bytes are
assembled little-endian into a 32-bit pattern, and `f32::from_bits` is
the identity in the bit-pattern representation. -/
def parse_float (bytes : List Nat) : Nat :=
  if bytes.length < 4 then 0
  else
    (bytes.getD 0 0) ||| ((bytes.getD 1 0) <<< 8) ||| ((bytes.getD 2 0) <<< 16) |||
      ((bytes.getD 3 0) <<< 24)

/-- Model of `((hi as i16) << 8) | lo as i16` for two buffer bytes
(sensors.rs lines 298-308): the 16-bit pattern `hi * 256 + lo` (the
shift wraps modulo `2 ^ 16`) read as a two's-complement signed value. -/
def i16_from_be (hi lo : Nat) : Int :=
  let p := ((hi <<< 8) ||| lo) % 65536
  if p < 32768 then (p : Int) else (p : Int) - 65536

/-- `floor (log2 n)` for `n ≥ 1`, fuel-bounded structural recursion so
that the kernel can evaluate it. -/
def log2fuel (n : Nat) : Nat → Nat
  | 0 => 0
  | fuel + 1 => if 2 ≤ n then log2fuel (n / 2) fuel + 1 else 0

/-- Smallest `k` with `d ≤ a * 2 ^ k` (for `1 ≤ a < d`), fuel-bounded. -/
def smallestK (a d : Nat) : Nat → Nat
  | 0 => 0
  | fuel + 1 => if d ≤ a then 0 else 1 + smallestK (2 * a) d fuel

/-- Round `n / d` to the nearest integer, ties to even. -/
def roundHalfEven (n d : Nat) : Nat :=
  let q := n / d
  let r := n % d
  if 2 * r < d then q
  else if d < 2 * r then q + 1
  else if q % 2 = 0 then q else q + 1

/-- Model of the IEEE-754 binary32 division `(x as f32) / (d as f32)`
performed by the short-payload fallback (sensors.rs lines 298-308),
where `x` is an `i16` value and `d` is the positive constant `16384` or
`131`.  Both operands are exactly representable in binary32 and every
quotient that arises lies in the normal range (its magnitude is between
`2 ^ -15` and `2 ^ 9`), so the result is the bit pattern of the exact
rational `x / d` rounded to nearest, ties to even. -/
def f32DivBits (x : Int) (d : Nat) : Nat :=
  if x = 0 then 0
  else
    let s : Nat := if x < 0 then 2 ^ 31 else 0
    let a := x.natAbs
    if d ≤ a then
      let e := log2fuel (a / d) 40
      let m := roundHalfEven (a <<< (23 - e)) d
      let Em : Nat × Nat := if m = 2 ^ 24 then (127 + e + 1, 2 ^ 23) else (127 + e, m)
      s + (Em.1 <<< 23) + (Em.2 - 2 ^ 23)
    else
      let k := smallestK a d 40
      let m := roundHalfEven (a <<< (23 + k)) d
      let Em : Nat × Nat := if m = 2 ^ 24 then (127 - k + 1, 2 ^ 23) else (127 - k, m)
      s + (Em.1 <<< 23) + (Em.2 - 2 ^ 23)

/-- Model of `read_sensor_data` (sensors.rs lines 255-325).  `ro` is the
outcome of the timed hardware read, `now` the instant stamped at line
313.  Decoding starts from a fresh `SensorData::default()` (line 266)
and fills fields according to the reported size. -/
def read_sensor_data (ro : ReadOutcome) (now : Nat) : Except SensorError SensorData :=
  match ro with
  | .hostError e => .error (.ReadError e)
  | .ok size buf =>
    if 0 < size then
      let d := SensorData.default now
      let d :=
        if 16 ≤ size then
          let d := { d with acceleration :=
            ⟨parse_float (sliceBytes buf 0 4), parse_float (sliceBytes buf 4 8),
              parse_float (sliceBytes buf 8 12)⟩ }
          let d := if 24 ≤ size then
            { d with gyro :=
              ⟨parse_float (sliceBytes buf 12 16), parse_float (sliceBytes buf 16 20),
                parse_float (sliceBytes buf 20 24)⟩ } else d
          let d := if 28 ≤ size then
            { d with temperature := parse_float (sliceBytes buf 24 28) } else d
          if 40 ≤ size then
            { d with orientation :=
              ⟨parse_float (sliceBytes buf 28 32), parse_float (sliceBytes buf 32 36),
                parse_float (sliceBytes buf 36 40)⟩ } else d
        else if 6 ≤ size then
          let d := { d with acceleration :=
            ⟨f32DivBits (i16_from_be (buf.getD 0 0) (buf.getD 1 0)) 16384,
              f32DivBits (i16_from_be (buf.getD 2 0) (buf.getD 3 0)) 16384,
              f32DivBits (i16_from_be (buf.getD 4 0) (buf.getD 5 0)) 16384⟩ }
          if 12 ≤ size then
            { d with gyro :=
              ⟨f32DivBits (i16_from_be (buf.getD 6 0) (buf.getD 7 0)) 131,
                f32DivBits (i16_from_be (buf.getD 8 0) (buf.getD 9 0)) 131,
                f32DivBits (i16_from_be (buf.getD 10 0) (buf.getD 11 0)) 131⟩ } else d
        else d
      .ok { d with timestamp := now }
    else .error (.ReadError "Zero bytes read")

/-- ASCII lower-casing of one character (the fragment of Rust
`str::to_lowercase` relevant to the ASCII keyword matching in
discovery). -/
def toLowerChar (c : Char) : Char :=
  if 'A' ≤ c ∧ c ≤ 'Z' then Char.ofNat (c.toNat + 32) else c

/-- `s.to_lowercase()` on the character list of a string. -/
def lowerStr (s : List Char) : List Char := s.map toLowerChar

/-- Model of Rust `hay.contains(needle)` for strings: `true` iff
`needle` occurs contiguously in `hay`. -/
def strContains (needle : List Char) : List Char → Bool
  | [] => needle.isEmpty
  | c :: rest => needle.isPrefixOf (c :: rest) || strContains needle rest

/-- Model of `hidapi::DeviceInfo` as used by discovery: ids plus the
optional product and manufacturer strings. -/
structure DeviceInfo where
  vendor_id : Nat
  product_id : Nat
  product_string : Option String
  manufacturer_string : Option String
deriving DecidableEq, Repr

/-- Model of the HID api handle: an `open(vendor_id, product_id)`
capability (`some handle` on success) and the device enumeration list. -/
structure HidApi where
  openDev : Nat → Nat → Option Nat
  device_list : List DeviceInfo

/-- The static table of supported sensors (sensors.rs lines 188-197). -/
def supported_sensors : List (Nat × Nat × String) :=
  [(0x16c0, 0x0486, "MPU-6050"),
   (0x2341, 0x8036, "Arduino Leonardo"),
   (0x1b4f, 0x9206, "SparkFun 9DoF"),
   (0x054c, 0x09cc, "Sony DualShock 4"),
   (0x057e, 0x2009, "Nintendo Switch Pro Controller")]

/-- The fallback keyword test of discovery (sensors.rs lines 224-236):
lower-case the product and manufacturer strings (`unwrap_or("")`) and
test the product against `gyro`, `accel`, `imu`, `motion` and the
manufacturer against `gyro`, `accel`. -/
def looksLikeIMU (di : DeviceInfo) : Bool :=
  let product := lowerStr (di.product_string.getD "").toList
  let manufacturer := lowerStr (di.manufacturer_string.getD "").toList
  strContains "gyro".toList product || strContains "accel".toList product ||
    strContains "imu".toList product || strContains "motion".toList product ||
    strContains "gyro".toList manufacturer || strContains "accel".toList manufacturer

/-- Phase 1 of `find_supported_sensor` (sensors.rs lines 200-210): try
to open each table entry in order, first success wins. -/
def findExact (api : HidApi) : List (Nat × Nat × String) → Option Nat
  | [] => none
  | (v, p, _) :: rest =>
    match api.openDev v p with
    | some d => some d
    | none => findExact api rest

/-- Phase 2 of `find_supported_sensor` (sensors.rs lines 214-247): scan
the enumeration, open the first device that passes `looksLikeIMU` and
whose open succeeds. -/
def findFallback (api : HidApi) : List DeviceInfo → Option Nat
  | [] => none
  | di :: rest =>
    if looksLikeIMU di then
      match api.openDev di.vendor_id di.product_id with
      | some d => some d
      | none => findFallback api rest
    else findFallback api rest

/-- Model of `SensorManager::find_supported_sensor` (sensors.rs lines
186-252). -/
def find_supported_sensor (api : HidApi) : Except SensorError Nat :=
  match findExact api supported_sensors with
  | some d => .ok d
  | none =>
    match findFallback api api.device_list with
    | some d => .ok d
    | none => .error .NotFound

/-- Outcome of one `crossbeam_channel::Sender::send` call. -/
inductive SendResult (α : Type) where
  | sent (queue : List α)
  | wouldBlock
  | disconnected
deriving DecidableEq, Repr

/-- Model of `crossbeam_channel::Sender::send` on a `bounded(cap)`
channel whose queue currently holds `q` (head = oldest): if the
receiver has been dropped the send fails with `SendError`
(`disconnected`); otherwise, if a slot is free the item is appended;
otherwise the call blocks the producer until the consumer drains a slot
(`wouldBlock`) - it neither drops the item nor returns an error. -/
def channelSend (cap : Nat) (q : List α) (connected : Bool) (x : α) : SendResult α :=
  if connected = false then .disconnected
  else if q.length < cap then .sent (q ++ [x])
  else .wouldBlock

/-- Model of `crossbeam_channel::Receiver::try_recv`: pop the oldest
queued item, if any. -/
def channelTryRecv (q : List α) : Option (α × List α) :=
  match q with
  | [] => none
  | x :: rest => some (x, rest)

/-- Feed `xs` one by one into a connected `bounded(cap)` channel with no
draining consumer; returns the final queue and the items not yet
delivered (the head of which is the send the producer is blocked on). -/
def enqueueAll (cap : Nat) : List α → List α → List α × List α
  | q, [] => (q, [])
  | q, x :: xs =>
    match channelSend cap q true x with
    | .sent q2 => enqueueAll cap q2 xs
    | _ => (q, x :: xs)

/-- State owned by the acquisition loop (sensors.rs lines 127-164):
the shared snapshot behind the mutex (`data_clone`) and the thread-local
`last_data`. -/
structure LoopState where
  snapshot : SensorData
  last_data : SensorData
deriving DecidableEq, Repr

/-- One iteration of the acquisition loop body (sensors.rs lines
130-163) on the outcome `r` of `read_sensor_data`; `sendOk` tells
whether the send on the channel succeeded (it fails exactly when the
receiver has been dropped).  Returns the new state and whether the loop
continues (`false` = `break`).  On success the snapshot is overwritten
before the send, and `last_data` only after a successful send; on error
the snapshot is rewritten with `last_data` only after a successful
send.  The mutex lock is modelled as always succeeding. -/
def loopStep (s : LoopState) (r : Except SensorError SensorData) (sendOk : Bool) :
    LoopState × Bool :=
  match r with
  | .ok d =>
    let s1 := { s with snapshot := d }
    if sendOk then ({ s1 with last_data := d }, true) else (s1, false)
  | .error _ =>
    if sendOk then ({ s with snapshot := s.last_data }, true) else (s, false)

/-- Run the acquisition loop over a finite trace of iteration inputs
(read outcome, send success); returns the final state and the number of
iterations executed (the loop stops early at the first failed send). -/
def runLoop (s : LoopState) : List ((Except SensorError SensorData) × Bool) → LoopState × Nat
  | [] => (s, 0)
  | (r, c) :: rest =>
    let sc := loopStep s r c
    if sc.2 then
      let fin := runLoop sc.1 rest
      (fin.1, fin.2 + 1)
    else (sc.1, 1)

/-- Model of `SensorManager` (sensors.rs lines 84-88): the shared
snapshot cell, the configuration, and the consumer side of the channel
(`none` until a successful `start`; modelled by its queue). -/
structure SensorManager where
  data : SensorData
  config : SensorConfig
  receiver : Option (List (Except SensorError SensorData))
deriving Repr

/-- `SensorManager::new` (sensors.rs lines 91-97); `t` is the instant
at which the default snapshot is stamped. -/
def SensorManager.new (config : SensorConfig) (t : Nat) : SensorManager :=
  { data := SensorData.default t, config := config, receiver := none }

/-- Model of `SensorManager::start` (sensors.rs lines 99-167).  `api`
is the outcome of `HidApi::new()`.  Disabled: immediate success with no
channel and no thread.  Api failure or discovery failure: error, state
unchanged.  Success: the channel is wired (empty queue) and the loop is
spawned (the spawned loop itself is modelled by `runLoop`). -/
def SensorManager.start (m : SensorManager) (api : Except String HidApi) :
    SensorManager × Except String Unit :=
  if m.config.enabled = false then (m, .ok ())
  else
    match api with
    | .error e => (m, .error ("Failed to initialize HID API: " ++ e))
    | .ok api =>
      match find_supported_sensor api with
      | .error _ => (m, .error "No compatible sensor found")
      | .ok _device => ({ m with receiver := some [] }, .ok ())

/-- `SensorManager::get_latest_data` (sensors.rs lines 170-176); the
lock is modelled as always succeeding. -/
def SensorManager.get_latest_data (m : SensorManager) : SensorData := m.data

/-- `SensorManager::try_receive_update` (sensors.rs lines 178-184):
`None` when the channel was never wired, otherwise `try_recv`. -/
def SensorManager.try_receive_update (m : SensorManager) :
    Option (Except SensorError SensorData) :=
  match m.receiver with
  | none => none
  | some q => q.head?

/-- Model of `initialize_sensors` (sensors.rs lines 342-354): build the
manager; if enabled, attempt `start` and absorb any failure (the
manager is returned anyway, operating in a disabled state); always
`Ok`. -/
def initialize_sensors (config : SensorConfig) (api : Except String HidApi) (t : Nat) :
    Except String SensorManager :=
  let m := SensorManager.new config t
  if m.config.enabled then .ok (m.start api).1 else .ok m

/-- The little-endian 4-byte encoding of a 32-bit pattern
(`f32::to_le_bytes` on the bit level), the encoder of the round-trip
property. -/
def leBytesOfBits (bits : Nat) : List Nat :=
  [bits % 256, bits / 256 % 256, bits / 65536 % 256, bits / 16777216 % 256]

/-- The fallback keyword test as the specification words it: the
lower-cased product string and the lower-cased manufacturer string are
each tested against the same keyword set `gyro`, `accel`, `imu`,
`motion`. -/
def specLooksLikeIMU (di : DeviceInfo) : Bool :=
  let product := lowerStr (di.product_string.getD "").toList
  let manufacturer := lowerStr (di.manufacturer_string.getD "").toList
  strContains "gyro".toList product || strContains "accel".toList product ||
    strContains "imu".toList product || strContains "motion".toList product ||
    strContains "gyro".toList manufacturer || strContains "accel".toList manufacturer ||
    strContains "imu".toList manufacturer || strContains "motion".toList manufacturer

/-- The most recent successfully decoded reading in a trace of loop
iteration inputs, starting from `d0`. -/
def lastGood (d0 : SensorData) (trace : List ((Except SensorError SensorData) × Bool)) :
    SensorData :=
  trace.foldl (fun acc p => match p.1 with | .ok d => d | .error _ => acc) d0

/-- A concrete 64-byte buffer used by witnesses. -/
def witnessBuf : List Nat := List.range 64

theorem lor_shift (a b k : Nat) (h : a < 2 ^ k) : a ||| b <<< k = a + b * 2 ^ k := by
  have hmul := Nat.mul_add_lt_is_or h b
  rw [Nat.shiftLeft_eq, Nat.lor_comm, Nat.mul_comm b (2 ^ k), ← hmul]
  omega

/-- C7: a successful hardware read of zero bytes yields
`ReadError("Zero bytes read")`, never a default reading; a successful
decode happens only when at least one byte was read. -/
theorem zero_read_is_error :
    (∀ (buf : List Nat) (now : Nat),
      read_sensor_data (.ok 0 buf) now = .error (.ReadError "Zero bytes read")) ∧
    (∀ (ro : ReadOutcome) (now : Nat) (d : SensorData),
      read_sensor_data ro now = .ok d → ∃ size buf, ro = .ok size buf ∧ 1 ≤ size) := by
  constructor
  · intro buf now
    simp [read_sensor_data]
  · intro ro now d h
    cases ro with
    | hostError e => simp [read_sensor_data] at h
    | ok size buf =>
      refine ⟨size, buf, rfl, ?_⟩
      by_contra hs
      have hz : size = 0 := by omega
      subst hz
      simp [read_sensor_data] at h

theorem zero_read_is_error_witness :
    read_sensor_data (.ok 0 witnessBuf) 5 = .error (.ReadError "Zero bytes read") ∧
    ∃ size buf, (ReadOutcome.ok 3 witnessBuf) = ReadOutcome.ok size buf ∧ 1 ≤ size :=
  ⟨zero_read_is_error.1 witnessBuf 5,
   zero_read_is_error.2 (.ok 3 witnessBuf) 7
     { timestamp := 7
       acceleration := ⟨0, 0, 0⟩
       gyro := ⟨0, 0, 0⟩
       orientation := ⟨0, 0, 0⟩
       temperature := 0 } rfl⟩

/-- C5: decoding the 4 little-endian bytes of any 32-bit pattern with
`parse_float` returns exactly that pattern - the reassembly is an
unsigned 32-bit little-endian load reinterpreted as a float bit
pattern, not a numeric conversion. -/
theorem parse_float_roundtrip (bits : Nat) (h : bits < 2 ^ 32) :
    parse_float (leBytesOfBits bits) = bits := by
  have h0 : bits % 256 < 256 := Nat.mod_lt _ (by norm_num)
  have h1 : bits / 256 % 256 < 256 := Nat.mod_lt _ (by norm_num)
  have h2 : bits / 65536 % 256 < 256 := Nat.mod_lt _ (by norm_num)
  simp only [leBytesOfBits, parse_float, List.length_cons, List.length_nil, List.getD_cons_zero,
    List.getD_cons_succ]
  rw [if_neg (by norm_num)]
  rw [lor_shift (bits % 256) (bits / 256 % 256) 8 (by omega)]
  rw [lor_shift (bits % 256 + bits / 256 % 256 * 2 ^ 8) (bits / 65536 % 256) 16 (by norm_num; omega)]
  rw [lor_shift (bits % 256 + bits / 256 % 256 * 2 ^ 8 + bits / 65536 % 256 * 2 ^ 16)
    (bits / 16777216 % 256) 24 (by norm_num; omega)]
  norm_num
  omega

theorem parse_float_roundtrip_witness :
    (1065353216 : Nat) < 2 ^ 32 ∧ parse_float (leBytesOfBits 1065353216) = 1065353216 :=
  ⟨by norm_num, parse_float_roundtrip 1065353216 (by norm_num)⟩

/-- C1: for a successful read of `n` bytes the decoder yields: `n = 0`
`ReadError`; `1 ≤ n < 6` the all-zero default with a fresh timestamp;
`6 ≤ n < 12` only acceleration (fixed-point fallback); `12 ≤ n < 16`
acceleration and gyro (fallback); `16 ≤ n < 24` acceleration from the
4-byte float layout, gyro zero; `24 ≤ n < 28` also gyro; `28 ≤ n < 40`
also temperature; `40 ≤ n` also orientation.  Every field not populated
by the size class is exactly zero: each decode starts from a fresh
default and carries nothing over. -/
theorem decode_size_ranges (n : Nat) (buf : List Nat) (now : Nat) :
    (n = 0 → read_sensor_data (.ok n buf) now = .error (.ReadError "Zero bytes read")) ∧
    (1 ≤ n → n < 6 → read_sensor_data (.ok n buf) now = .ok (SensorData.default now)) ∧
    (6 ≤ n → n < 12 → read_sensor_data (.ok n buf) now = .ok
      { timestamp := now
        acceleration := ⟨f32DivBits (i16_from_be (buf.getD 0 0) (buf.getD 1 0)) 16384,
          f32DivBits (i16_from_be (buf.getD 2 0) (buf.getD 3 0)) 16384,
          f32DivBits (i16_from_be (buf.getD 4 0) (buf.getD 5 0)) 16384⟩
        gyro := ⟨0, 0, 0⟩
        orientation := ⟨0, 0, 0⟩
        temperature := 0 }) ∧
    (12 ≤ n → n < 16 → read_sensor_data (.ok n buf) now = .ok
      { timestamp := now
        acceleration := ⟨f32DivBits (i16_from_be (buf.getD 0 0) (buf.getD 1 0)) 16384,
          f32DivBits (i16_from_be (buf.getD 2 0) (buf.getD 3 0)) 16384,
          f32DivBits (i16_from_be (buf.getD 4 0) (buf.getD 5 0)) 16384⟩
        gyro := ⟨f32DivBits (i16_from_be (buf.getD 6 0) (buf.getD 7 0)) 131,
          f32DivBits (i16_from_be (buf.getD 8 0) (buf.getD 9 0)) 131,
          f32DivBits (i16_from_be (buf.getD 10 0) (buf.getD 11 0)) 131⟩
        orientation := ⟨0, 0, 0⟩
        temperature := 0 }) ∧
    (16 ≤ n → n < 24 → read_sensor_data (.ok n buf) now = .ok
      { timestamp := now
        acceleration := ⟨parse_float (sliceBytes buf 0 4), parse_float (sliceBytes buf 4 8),
          parse_float (sliceBytes buf 8 12)⟩
        gyro := ⟨0, 0, 0⟩
        orientation := ⟨0, 0, 0⟩
        temperature := 0 }) ∧
    (24 ≤ n → n < 28 → read_sensor_data (.ok n buf) now = .ok
      { timestamp := now
        acceleration := ⟨parse_float (sliceBytes buf 0 4), parse_float (sliceBytes buf 4 8),
          parse_float (sliceBytes buf 8 12)⟩
        gyro := ⟨parse_float (sliceBytes buf 12 16), parse_float (sliceBytes buf 16 20),
          parse_float (sliceBytes buf 20 24)⟩
        orientation := ⟨0, 0, 0⟩
        temperature := 0 }) ∧
    (28 ≤ n → n < 40 → read_sensor_data (.ok n buf) now = .ok
      { timestamp := now
        acceleration := ⟨parse_float (sliceBytes buf 0 4), parse_float (sliceBytes buf 4 8),
          parse_float (sliceBytes buf 8 12)⟩
        gyro := ⟨parse_float (sliceBytes buf 12 16), parse_float (sliceBytes buf 16 20),
          parse_float (sliceBytes buf 20 24)⟩
        orientation := ⟨0, 0, 0⟩
        temperature := parse_float (sliceBytes buf 24 28) }) ∧
    (40 ≤ n → read_sensor_data (.ok n buf) now = .ok
      { timestamp := now
        acceleration := ⟨parse_float (sliceBytes buf 0 4), parse_float (sliceBytes buf 4 8),
          parse_float (sliceBytes buf 8 12)⟩
        gyro := ⟨parse_float (sliceBytes buf 12 16), parse_float (sliceBytes buf 16 20),
          parse_float (sliceBytes buf 20 24)⟩
        orientation := ⟨parse_float (sliceBytes buf 28 32), parse_float (sliceBytes buf 32 36),
          parse_float (sliceBytes buf 36 40)⟩
        temperature := parse_float (sliceBytes buf 24 28) }) := by
  refine ⟨?_, ?_, ?_, ?_, ?_, ?_, ?_, ?_⟩
  · intro h
    subst h
    simp [read_sensor_data]
  · intro h1 h2
    simp [read_sensor_data, SensorData.default, show 0 < n by omega, show ¬ 16 ≤ n by omega,
      show ¬ 6 ≤ n by omega]
  · intro h1 h2
    simp [read_sensor_data, SensorData.default, show 0 < n by omega, show ¬ 16 ≤ n by omega,
      h1, show ¬ 12 ≤ n by omega]
  · intro h1 h2
    simp [read_sensor_data, SensorData.default, show 0 < n by omega, show ¬ 16 ≤ n by omega,
      show 6 ≤ n by omega, h1]
  · intro h1 h2
    simp [read_sensor_data, SensorData.default, show 0 < n by omega, h1,
      show ¬ 24 ≤ n by omega, show ¬ 28 ≤ n by omega, show ¬ 40 ≤ n by omega]
  · intro h1 h2
    simp [read_sensor_data, SensorData.default, show 0 < n by omega, show 16 ≤ n by omega,
      h1, show ¬ 28 ≤ n by omega, show ¬ 40 ≤ n by omega]
  · intro h1 h2
    simp [read_sensor_data, SensorData.default, show 0 < n by omega, show 16 ≤ n by omega,
      show 24 ≤ n by omega, h1, show ¬ 40 ≤ n by omega]
  · intro h1
    simp [read_sensor_data, SensorData.default, show 0 < n by omega, show 16 ≤ n by omega,
      show 24 ≤ n by omega, show 28 ≤ n by omega, h1]

theorem decode_size_ranges_witness :
    read_sensor_data (.ok 0 witnessBuf) 7 = .error (.ReadError "Zero bytes read") ∧
    read_sensor_data (.ok 3 witnessBuf) 7 = .ok (SensorData.default 7) ∧
    read_sensor_data (.ok 8 witnessBuf) 7 = .ok
      { timestamp := 7
        acceleration := ⟨f32DivBits (i16_from_be (witnessBuf.getD 0 0) (witnessBuf.getD 1 0)) 16384,
          f32DivBits (i16_from_be (witnessBuf.getD 2 0) (witnessBuf.getD 3 0)) 16384,
          f32DivBits (i16_from_be (witnessBuf.getD 4 0) (witnessBuf.getD 5 0)) 16384⟩
        gyro := ⟨0, 0, 0⟩
        orientation := ⟨0, 0, 0⟩
        temperature := 0 } ∧
    read_sensor_data (.ok 13 witnessBuf) 7 = .ok
      { timestamp := 7
        acceleration := ⟨f32DivBits (i16_from_be (witnessBuf.getD 0 0) (witnessBuf.getD 1 0)) 16384,
          f32DivBits (i16_from_be (witnessBuf.getD 2 0) (witnessBuf.getD 3 0)) 16384,
          f32DivBits (i16_from_be (witnessBuf.getD 4 0) (witnessBuf.getD 5 0)) 16384⟩
        gyro := ⟨f32DivBits (i16_from_be (witnessBuf.getD 6 0) (witnessBuf.getD 7 0)) 131,
          f32DivBits (i16_from_be (witnessBuf.getD 8 0) (witnessBuf.getD 9 0)) 131,
          f32DivBits (i16_from_be (witnessBuf.getD 10 0) (witnessBuf.getD 11 0)) 131⟩
        orientation := ⟨0, 0, 0⟩
        temperature := 0 } ∧
    read_sensor_data (.ok 20 witnessBuf) 7 = .ok
      { timestamp := 7
        acceleration := ⟨parse_float (sliceBytes witnessBuf 0 4),
          parse_float (sliceBytes witnessBuf 4 8), parse_float (sliceBytes witnessBuf 8 12)⟩
        gyro := ⟨0, 0, 0⟩
        orientation := ⟨0, 0, 0⟩
        temperature := 0 } ∧
    read_sensor_data (.ok 25 witnessBuf) 7 = .ok
      { timestamp := 7
        acceleration := ⟨parse_float (sliceBytes witnessBuf 0 4),
          parse_float (sliceBytes witnessBuf 4 8), parse_float (sliceBytes witnessBuf 8 12)⟩
        gyro := ⟨parse_float (sliceBytes witnessBuf 12 16),
          parse_float (sliceBytes witnessBuf 16 20), parse_float (sliceBytes witnessBuf 20 24)⟩
        orientation := ⟨0, 0, 0⟩
        temperature := 0 } ∧
    read_sensor_data (.ok 30 witnessBuf) 7 = .ok
      { timestamp := 7
        acceleration := ⟨parse_float (sliceBytes witnessBuf 0 4),
          parse_float (sliceBytes witnessBuf 4 8), parse_float (sliceBytes witnessBuf 8 12)⟩
        gyro := ⟨parse_float (sliceBytes witnessBuf 12 16),
          parse_float (sliceBytes witnessBuf 16 20), parse_float (sliceBytes witnessBuf 20 24)⟩
        orientation := ⟨0, 0, 0⟩
        temperature := parse_float (sliceBytes witnessBuf 24 28) } ∧
    read_sensor_data (.ok 45 witnessBuf) 7 = .ok
      { timestamp := 7
        acceleration := ⟨parse_float (sliceBytes witnessBuf 0 4),
          parse_float (sliceBytes witnessBuf 4 8), parse_float (sliceBytes witnessBuf 8 12)⟩
        gyro := ⟨parse_float (sliceBytes witnessBuf 12 16),
          parse_float (sliceBytes witnessBuf 16 20), parse_float (sliceBytes witnessBuf 20 24)⟩
        orientation := ⟨parse_float (sliceBytes witnessBuf 28 32),
          parse_float (sliceBytes witnessBuf 32 36), parse_float (sliceBytes witnessBuf 36 40)⟩
        temperature := parse_float (sliceBytes witnessBuf 24 28) } :=
  ⟨(decode_size_ranges 0 witnessBuf 7).1 rfl,
   (decode_size_ranges 3 witnessBuf 7).2.1 (by norm_num) (by norm_num),
   (decode_size_ranges 8 witnessBuf 7).2.2.1 (by norm_num) (by norm_num),
   (decode_size_ranges 13 witnessBuf 7).2.2.2.1 (by norm_num) (by norm_num),
   (decode_size_ranges 20 witnessBuf 7).2.2.2.2.1 (by norm_num) (by norm_num),
   (decode_size_ranges 25 witnessBuf 7).2.2.2.2.2.1 (by norm_num) (by norm_num),
   (decode_size_ranges 30 witnessBuf 7).2.2.2.2.2.2.1 (by norm_num) (by norm_num),
   (decode_size_ranges 45 witnessBuf 7).2.2.2.2.2.2.2 (by norm_num)⟩

/-- C6: in the short-payload fallback each 2-byte component is decoded
as a signed 16-bit big-endian integer (high byte at the lower offset,
two's complement) and divided by the fixed-point scale; temperature and
orientation stay zero.  Raw big-endian value `16384` (bytes `0x40 0x00`)
at an acceleration offset decodes to exactly `1.0` (bit pattern
`0x3F800000`), and raw value `131` (bytes `0x00 0x83`) at an
angular-velocity offset decodes to exactly `1.0`. -/
theorem fallback_fixed_point (n : Nat) (buf : List Nat) (now : Nat) :
    (∀ hi lo, hi < 256 → lo < 256 → i16_from_be hi lo =
      if hi * 256 + lo < 32768 then ((hi * 256 + lo : Nat) : Int)
      else ((hi * 256 + lo : Nat) : Int) - 65536) ∧
    (6 ≤ n → n < 16 → ∃ d, read_sensor_data (.ok n buf) now = .ok d ∧
      d.acceleration = ⟨f32DivBits (i16_from_be (buf.getD 0 0) (buf.getD 1 0)) 16384,
        f32DivBits (i16_from_be (buf.getD 2 0) (buf.getD 3 0)) 16384,
        f32DivBits (i16_from_be (buf.getD 4 0) (buf.getD 5 0)) 16384⟩ ∧
      d.temperature = 0 ∧ d.orientation = ⟨0, 0, 0⟩) ∧
    f32DivBits (i16_from_be 0x40 0x00) 16384 = 0x3F800000 ∧
    f32DivBits (i16_from_be 0x00 0x83) 131 = 0x3F800000 := by
  refine ⟨?_, ?_, by decide, by decide⟩
  · intro hi lo hh hl
    have hp : (hi <<< 8 ||| lo) % 65536 = hi * 256 + lo := by
      rw [Nat.lor_comm, lor_shift lo hi 8 hl]
      norm_num
      omega
    simp only [i16_from_be]
    rw [hp]
  · intro h6 h16
    by_cases h12 : 12 ≤ n
    · refine ⟨{ timestamp := now
                acceleration := ⟨f32DivBits (i16_from_be (buf.getD 0 0) (buf.getD 1 0)) 16384,
                  f32DivBits (i16_from_be (buf.getD 2 0) (buf.getD 3 0)) 16384,
                  f32DivBits (i16_from_be (buf.getD 4 0) (buf.getD 5 0)) 16384⟩
                gyro := ⟨f32DivBits (i16_from_be (buf.getD 6 0) (buf.getD 7 0)) 131,
                  f32DivBits (i16_from_be (buf.getD 8 0) (buf.getD 9 0)) 131,
                  f32DivBits (i16_from_be (buf.getD 10 0) (buf.getD 11 0)) 131⟩
                orientation := ⟨0, 0, 0⟩
                temperature := 0 }, ?_, rfl, rfl, rfl⟩
      simp [read_sensor_data, SensorData.default, show 0 < n by omega,
        show ¬ 16 ≤ n by omega, h6, h12]
    · refine ⟨{ timestamp := now
                acceleration := ⟨f32DivBits (i16_from_be (buf.getD 0 0) (buf.getD 1 0)) 16384,
                  f32DivBits (i16_from_be (buf.getD 2 0) (buf.getD 3 0)) 16384,
                  f32DivBits (i16_from_be (buf.getD 4 0) (buf.getD 5 0)) 16384⟩
                gyro := ⟨0, 0, 0⟩
                orientation := ⟨0, 0, 0⟩
                temperature := 0 }, ?_, rfl, rfl, rfl⟩
      simp [read_sensor_data, SensorData.default, show 0 < n by omega,
        show ¬ 16 ≤ n by omega, h6, h12]

theorem fallback_fixed_point_witness :
    i16_from_be 64 0 =
      (if 64 * 256 + 0 < 32768 then ((64 * 256 + 0 : Nat) : Int)
       else ((64 * 256 + 0 : Nat) : Int) - 65536) ∧
    (∃ d, read_sensor_data (.ok 8 witnessBuf) 3 = .ok d ∧
      d.acceleration = ⟨f32DivBits (i16_from_be (witnessBuf.getD 0 0) (witnessBuf.getD 1 0)) 16384,
        f32DivBits (i16_from_be (witnessBuf.getD 2 0) (witnessBuf.getD 3 0)) 16384,
        f32DivBits (i16_from_be (witnessBuf.getD 4 0) (witnessBuf.getD 5 0)) 16384⟩ ∧
      d.temperature = 0 ∧ d.orientation = ⟨0, 0, 0⟩) :=
  ⟨(fallback_fixed_point 8 witnessBuf 3).1 64 0 (by norm_num) (by norm_num),
   (fallback_fixed_point 8 witnessBuf 3).2.1 (by norm_num) (by norm_num)⟩

theorem sliceBytes_take40 (l : List Nat) (a b : Nat) (h : b ≤ 40) :
    sliceBytes (l.take 40) a b = sliceBytes l a b := by
  unfold sliceBytes
  rw [List.drop_take, List.take_take]
  congr 1
  omega

theorem getD_take40 (l : List Nat) (i : Nat) (h : i < 40) :
    (l.take 40).getD i 0 = l.getD i 0 := by
  simp [List.getD_eq_getElem?_getD, List.getElem?_take_of_lt h]

/-- C10: `parse_float` is total - any slice shorter than 4 bytes gives
`0.0`, and only the first four bytes of a longer slice are read; and
the whole decoder depends only on the first 40 bytes of the buffer, so
every slice it takes lies inside the fixed 64-byte buffer. -/
theorem parse_float_safe (bytes : List Nat) (n : Nat) (buf : List Nat) (now : Nat) :
    (bytes.length < 4 → parse_float bytes = 0) ∧
    (parse_float bytes = parse_float (bytes.take 4)) ∧
    (read_sensor_data (.ok n buf) now = read_sensor_data (.ok n (buf.take 40)) now) := by
  refine ⟨?_, ?_, ?_⟩
  · intro h
    simp [parse_float, h]
  · by_cases h : bytes.length < 4
    · rw [List.take_of_length_le (by omega)]
    · have h4 : ¬ (bytes.take 4).length < 4 := by
        simp [List.length_take]
        omega
      simp [parse_float, h, h4, List.getD_eq_getElem?_getD, List.getElem?_take]
  · simp only [read_sensor_data]
    rw [sliceBytes_take40 buf 0 4 (by norm_num), sliceBytes_take40 buf 4 8 (by norm_num),
      sliceBytes_take40 buf 8 12 (by norm_num), sliceBytes_take40 buf 12 16 (by norm_num),
      sliceBytes_take40 buf 16 20 (by norm_num), sliceBytes_take40 buf 20 24 (by norm_num),
      sliceBytes_take40 buf 24 28 (by norm_num), sliceBytes_take40 buf 28 32 (by norm_num),
      sliceBytes_take40 buf 32 36 (by norm_num), sliceBytes_take40 buf 36 40 (by norm_num),
      getD_take40 buf 0 (by norm_num), getD_take40 buf 1 (by norm_num),
      getD_take40 buf 2 (by norm_num), getD_take40 buf 3 (by norm_num),
      getD_take40 buf 4 (by norm_num), getD_take40 buf 5 (by norm_num),
      getD_take40 buf 6 (by norm_num), getD_take40 buf 7 (by norm_num),
      getD_take40 buf 8 (by norm_num), getD_take40 buf 9 (by norm_num),
      getD_take40 buf 10 (by norm_num), getD_take40 buf 11 (by norm_num)]

theorem parse_float_safe_witness :
    parse_float [1, 2] = 0 ∧
    parse_float [1, 2, 3, 4, 5] = parse_float ([1, 2, 3, 4, 5].take 4) ∧
    read_sensor_data (.ok 20 witnessBuf) 3 = read_sensor_data (.ok 20 (witnessBuf.take 40)) 3 :=
  ⟨(parse_float_safe [1, 2] 20 witnessBuf 3).1 (by norm_num),
   (parse_float_safe [1, 2, 3, 4, 5] 20 witnessBuf 3).2.1,
   (parse_float_safe [1, 2, 3, 4, 5] 20 witnessBuf 3).2.2⟩

/-- C4 counterexample: a device whose manufacturer string contains
"imu" and "motion" but whose product string matches no keyword passes
the symmetric four-keyword test the specification describes
(`specLooksLikeIMU`), yet the code's fallback test rejects it - the
manufacturer string is only checked for "gyro" and "accel" - so
discovery fails with `NotFound` instead of selecting it. -/
theorem fallback_manufacturer_not_symmetric :
    specLooksLikeIMU
      { vendor_id := 1
        product_id := 2
        product_string := some "TestPad"
        manufacturer_string := some "IMU Motion Systems" } = true ∧
    looksLikeIMU
      { vendor_id := 1
        product_id := 2
        product_string := some "TestPad"
        manufacturer_string := some "IMU Motion Systems" } = false ∧
    find_supported_sensor
      { openDev := fun v p => if v = 1 ∧ p = 2 then some 7 else none
        device_list :=
          [{ vendor_id := 1
             product_id := 2
             product_string := some "TestPad"
             manufacturer_string := some "IMU Motion Systems" }] } = .error .NotFound :=
  ⟨rfl, rfl, rfl⟩

/-- C4 (amended): in the fallback phase the lower-cased product string
is tested against `gyro`, `accel`, `imu`, `motion` but the lower-cased
manufacturer string only against `gyro` and `accel`; for a device whose
ids match no table entry, discovery selects it exactly when that
asymmetric test passes. -/
theorem fallback_keyword_selection (di : DeviceInfo) (handle : Nat)
    (h1 : ¬ (0x16c0 = di.vendor_id ∧ 0x0486 = di.product_id))
    (h2 : ¬ (0x2341 = di.vendor_id ∧ 0x8036 = di.product_id))
    (h3 : ¬ (0x1b4f = di.vendor_id ∧ 0x9206 = di.product_id))
    (h4 : ¬ (0x054c = di.vendor_id ∧ 0x09cc = di.product_id))
    (h5 : ¬ (0x057e = di.vendor_id ∧ 0x2009 = di.product_id)) :
    find_supported_sensor
        { openDev := fun v p => if v = di.vendor_id ∧ p = di.product_id then some handle else none
          device_list := [di] } = .ok handle ↔
      (strContains "gyro".toList (lowerStr (di.product_string.getD "").toList) ||
        strContains "accel".toList (lowerStr (di.product_string.getD "").toList) ||
        strContains "imu".toList (lowerStr (di.product_string.getD "").toList) ||
        strContains "motion".toList (lowerStr (di.product_string.getD "").toList) ||
        strContains "gyro".toList (lowerStr (di.manufacturer_string.getD "").toList) ||
        strContains "accel".toList (lowerStr (di.manufacturer_string.getD "").toList)) = true := by
  have hchar : (strContains "gyro".toList (lowerStr (di.product_string.getD "").toList) ||
        strContains "accel".toList (lowerStr (di.product_string.getD "").toList) ||
        strContains "imu".toList (lowerStr (di.product_string.getD "").toList) ||
        strContains "motion".toList (lowerStr (di.product_string.getD "").toList) ||
        strContains "gyro".toList (lowerStr (di.manufacturer_string.getD "").toList) ||
        strContains "accel".toList (lowerStr (di.manufacturer_string.getD "").toList)) =
      looksLikeIMU di := rfl
  rw [hchar]
  by_cases hL : looksLikeIMU di = true
  · simp [find_supported_sensor, findExact, supported_sensors, findFallback, h1, h2, h3, h4, h5, hL]
  · simp only [Bool.not_eq_true] at hL
    simp [find_supported_sensor, findExact, supported_sensors, findFallback, h1, h2, h3, h4, h5, hL]

theorem fallback_keyword_selection_witness :
    find_supported_sensor
        { openDev := fun v p =>
            if v = (3 : Nat) ∧ p = (4 : Nat) then some 7 else none
          device_list :=
            [{ vendor_id := 3
               product_id := 4
               product_string := some "Pad"
               manufacturer_string := some "Gyro Sensor Co" }] } = .ok 7 ↔
      (strContains "gyro".toList (lowerStr ((some "Pad").getD "").toList) ||
        strContains "accel".toList (lowerStr ((some "Pad").getD "").toList) ||
        strContains "imu".toList (lowerStr ((some "Pad").getD "").toList) ||
        strContains "motion".toList (lowerStr ((some "Pad").getD "").toList) ||
        strContains "gyro".toList (lowerStr ((some "Gyro Sensor Co").getD "").toList) ||
        strContains "accel".toList (lowerStr ((some "Gyro Sensor Co").getD "").toList)) = true :=
  fallback_keyword_selection
    { vendor_id := 3
      product_id := 4
      product_string := some "Pad"
      manufacturer_string := some "Gyro Sensor Co" } 7
    (by decide) (by decide) (by decide) (by decide) (by decide)

theorem enqueueAll_eq (xs : List Nat) : ∀ q : List Nat, q.length ≤ 10 →
    enqueueAll 10 q xs = (q ++ xs.take (10 - q.length), xs.drop (10 - q.length)) := by
  induction xs with
  | nil =>
    intro q h
    simp [enqueueAll]
  | cons x xs ih =>
    intro q h
    by_cases hq : q.length < 10
    · have hstep : channelSend 10 q true x = .sent (q ++ [x]) := by
        simp [channelSend, hq]
      simp only [enqueueAll, hstep]
      rw [ih (q ++ [x]) (by simp; omega)]
      have h10 : 10 - q.length = (10 - (q ++ [x]).length) + 1 := by
        simp
        omega
      rw [h10]
      simp [List.append_assoc]
    · have hstep : channelSend 10 q true x = .wouldBlock := by
        simp [channelSend, hq]
      simp only [enqueueAll, hstep]
      have hz : 10 - q.length = 0 := by omega
      simp [hz]

/-- C2 counterexample: feeding 11 items into the empty bounded(10)
channel with no drain does NOT leave the 11th silently dropped with the
producer free to continue: the first 10 are queued and the 11th send
blocks the producer (`crossbeam_channel::Sender::send` on a full
connected channel waits; it neither drops nor errors). -/
theorem channel_eleventh_item_blocks :
    enqueueAll 10 [] (List.range 11) ≠ (List.range 10, []) ∧
    enqueueAll 10 [] (List.range 11) = (List.range 10, [10]) ∧
    channelSend 10 (List.range 10) true 10 = .wouldBlock := by decide

/-- C2 (amended): the update channel is a bounded FIFO of fixed
capacity 10; a send with the receiver alive appends in order while a
slot is free; when the queue is full the producer's send blocks (the
item is neither dropped nor an error raised); a send fails exactly when
the receiver side has been dropped; the consumer drains in
first-in-first-out order. -/
theorem channel_bounded_fifo (q : List Nat) (xs : List Nat) (x : Nat) :
    (q.length < 10 → channelSend 10 q true x = .sent (q ++ [x])) ∧
    (q.length = 10 → channelSend 10 q true x = .wouldBlock) ∧
    (channelSend 10 q false x = .disconnected) ∧
    (channelTryRecv (x :: q) = some (x, q)) ∧
    (q.length ≤ 10 →
      enqueueAll 10 q xs = (q ++ xs.take (10 - q.length), xs.drop (10 - q.length))) := by
  refine ⟨?_, ?_, ?_, rfl, fun h => enqueueAll_eq xs q h⟩
  · intro h
    simp [channelSend, h]
  · intro h
    simp [channelSend, h]
  · simp [channelSend]

theorem channel_bounded_fifo_witness :
    channelSend 10 ([] : List Nat) true 5 = .sent [5] ∧
    channelSend 10 (List.range 10) true 10 = .wouldBlock ∧
    channelSend 10 (List.range 10) false 10 = .disconnected ∧
    channelTryRecv (5 :: ([] : List Nat)) = some (5, []) ∧
    enqueueAll 10 ([] : List Nat) (List.range 11) =
      ([] ++ (List.range 11).take (10 - List.length ([] : List Nat)),
        (List.range 11).drop (10 - List.length ([] : List Nat))) :=
  ⟨(channel_bounded_fifo [] (List.range 11) 5).1 (by decide),
   (channel_bounded_fifo (List.range 10) [] 10).2.1 (by decide),
   (channel_bounded_fifo (List.range 10) [] 10).2.2.1,
   (channel_bounded_fifo [] (List.range 11) 5).2.2.2.1,
   (channel_bounded_fifo [] (List.range 11) 5).2.2.2.2 (by decide)⟩

theorem runLoop_lastGood :
    ∀ (trace : List ((Except SensorError SensorData) × Bool)) (s : LoopState),
    s.snapshot = s.last_data → (∀ p ∈ trace, p.2 = true) →
    (runLoop s trace).1.snapshot = lastGood s.last_data trace ∧
    (runLoop s trace).1.last_data = lastGood s.last_data trace := by
  intro trace
  induction trace with
  | nil =>
    intro s hinv hall
    simp [runLoop, lastGood, hinv]
  | cons p rest ih =>
    intro s hinv hall
    obtain ⟨r, c⟩ := p
    have hc : c = true := hall (r, c) (by simp)
    subst hc
    have hrest : ∀ p ∈ rest, p.2 = true := fun p hp => hall p (List.mem_cons_of_mem _ hp)
    cases r with
    | ok d =>
      have hR : runLoop s ((Except.ok d, true) :: rest) =
          ((runLoop ⟨d, d⟩ rest).1, (runLoop ⟨d, d⟩ rest).2 + 1) := rfl
      have hL : lastGood s.last_data ((Except.ok d, true) :: rest) = lastGood d rest := rfl
      rw [hR, hL]
      exact ih ⟨d, d⟩ rfl hrest
    | error e =>
      have hR : runLoop s ((Except.error e, true) :: rest) =
          ((runLoop ⟨s.last_data, s.last_data⟩ rest).1,
            (runLoop ⟨s.last_data, s.last_data⟩ rest).2 + 1) := rfl
      have hL : lastGood s.last_data ((Except.error e, true) :: rest) =
          lastGood s.last_data rest := rfl
      rw [hR, hL]
      exact ih ⟨s.last_data, s.last_data⟩ rfl hrest

theorem runLoop_no_ok :
    ∀ (trace : List ((Except SensorError SensorData) × Bool)) (s : LoopState),
    s.snapshot = s.last_data → (∀ p ∈ trace, ∀ d, p.1 ≠ Except.ok d) →
    (runLoop s trace).1.snapshot = s.last_data ∧
    (runLoop s trace).1.last_data = s.last_data := by
  intro trace
  induction trace with
  | nil =>
    intro s hinv hall
    simp [runLoop, hinv]
  | cons p rest ih =>
    intro s hinv hall
    obtain ⟨r, c⟩ := p
    cases r with
    | ok d => exact absurd rfl (hall (Except.ok d, c) (by simp) d)
    | error e =>
      have hrest : ∀ p ∈ rest, ∀ d, p.1 ≠ Except.ok d :=
        fun p hp => hall p (List.mem_cons_of_mem _ hp)
      cases c with
      | true =>
        have hR : runLoop s ((Except.error e, true) :: rest) =
            ((runLoop ⟨s.last_data, s.last_data⟩ rest).1,
              (runLoop ⟨s.last_data, s.last_data⟩ rest).2 + 1) := rfl
        rw [hR]
        exact ih ⟨s.last_data, s.last_data⟩ rfl hrest
      | false =>
        have hR : runLoop s ((Except.error e, false) :: rest) = (s, 1) := rfl
        rw [hR]
        exact ⟨hinv, rfl⟩

/-- C3: over any run in which every send succeeds, the shared snapshot
ends up holding the most recent successfully decoded reading (or the
initial value if none succeeded); in particular a `ReadError` right
after a successful reading leaves that reading in the snapshot, which
is what `get_latest_data` returns - a read failure never resets the
snapshot to the default once a read has succeeded. -/
theorem snapshot_last_known_good (s : LoopState)
    (trace : List ((Except SensorError SensorData) × Bool)) :
    (s.snapshot = s.last_data → (∀ p ∈ trace, p.2 = true) →
      (runLoop s trace).1.snapshot = lastGood s.last_data trace) ∧
    (∀ (d : SensorData) (err : SensorError),
      (runLoop s [(Except.ok d, true), (Except.error err, true)]).1.snapshot = d) ∧
    (∀ m : SensorManager, m.get_latest_data = m.data) :=
  ⟨fun h1 h2 => (runLoop_lastGood trace s h1 h2).1,
   fun _ _ => rfl,
   fun _ => rfl⟩

theorem snapshot_last_known_good_witness :
    (runLoop ⟨SensorData.default 0, SensorData.default 0⟩
        [(Except.ok (SensorData.default 9), true),
          (Except.error (SensorError.ReadError "t"), true)]).1.snapshot =
      lastGood (LoopState.mk (SensorData.default 0) (SensorData.default 0)).last_data
        [(Except.ok (SensorData.default 9), true),
          (Except.error (SensorError.ReadError "t"), true)] :=
  (snapshot_last_known_good ⟨SensorData.default 0, SensorData.default 0⟩
      [(Except.ok (SensorData.default 9), true),
        (Except.error (SensorError.ReadError "t"), true)]).1 rfl (by simp)

theorem loopStep_continue (s : LoopState) (r : Except SensorError SensorData) (c : Bool) :
    (loopStep s r c).2 = c := by
  cases r <;> cases c <;> rfl

theorem runLoop_count_all :
    ∀ (trace : List ((Except SensorError SensorData) × Bool)) (s : LoopState),
    (∀ p ∈ trace, p.2 = true) → (runLoop s trace).2 = trace.length := by
  intro trace
  induction trace with
  | nil => intro s _; rfl
  | cons p rest ih =>
    intro s hall
    obtain ⟨r, c⟩ := p
    have hc : c = true := hall (r, c) (by simp)
    subst hc
    have hrest : ∀ p ∈ rest, p.2 = true := fun p hp => hall p (List.mem_cons_of_mem _ hp)
    cases r with
    | ok d =>
      have hR : runLoop s ((Except.ok d, true) :: rest) =
          ((runLoop ⟨d, d⟩ rest).1, (runLoop ⟨d, d⟩ rest).2 + 1) := rfl
      rw [hR]
      simp [ih ⟨d, d⟩ hrest]
    | error e =>
      have hR : runLoop s ((Except.error e, true) :: rest) =
          ((runLoop ⟨s.last_data, s.last_data⟩ rest).1,
            (runLoop ⟨s.last_data, s.last_data⟩ rest).2 + 1) := rfl
      rw [hR]
      simp [ih ⟨s.last_data, s.last_data⟩ hrest]

theorem runLoop_count_break :
    ∀ (pre : List ((Except SensorError SensorData) × Bool)) (s : LoopState)
      (r : Except SensorError SensorData) rest,
    (∀ p ∈ pre, p.2 = true) →
    (runLoop s (pre ++ (r, false) :: rest)).2 = pre.length + 1 := by
  intro pre
  induction pre with
  | nil =>
    intro s r rest _
    cases r with
    | ok d => rfl
    | error e => rfl
  | cons p pre ih =>
    intro s r rest hall
    obtain ⟨r0, c0⟩ := p
    have hc : c0 = true := hall (r0, c0) (by simp)
    subst hc
    have hpre : ∀ p ∈ pre, p.2 = true := fun p hp => hall p (List.mem_cons_of_mem _ hp)
    cases r0 with
    | ok d =>
      have hR : runLoop s (((Except.ok d, true) :: pre) ++ (r, false) :: rest) =
          ((runLoop ⟨d, d⟩ (pre ++ (r, false) :: rest)).1,
            (runLoop ⟨d, d⟩ (pre ++ (r, false) :: rest)).2 + 1) := rfl
      rw [hR]
      simp [ih ⟨d, d⟩ r rest hpre]
    | error e =>
      have hR : runLoop s (((Except.error e, true) :: pre) ++ (r, false) :: rest) =
          ((runLoop ⟨s.last_data, s.last_data⟩ (pre ++ (r, false) :: rest)).1,
            (runLoop ⟨s.last_data, s.last_data⟩ (pre ++ (r, false) :: rest)).2 + 1) := rfl
      rw [hR]
      simp [ih ⟨s.last_data, s.last_data⟩ r rest hpre]

/-- C9: one loop iteration continues exactly when its send succeeded -
a read or decode error with a successful send never ends the loop (the
error is forwarded and the loop sleeps and continues), and the loop
runs every iteration of a trace whose sends all succeed; it stops at
the first failed send (receiver dropped), and there is no other exit
path. -/
theorem loop_exit_only_on_send_failure :
    (∀ (s : LoopState) (r : Except SensorError SensorData) (c : Bool),
      (loopStep s r c).2 = c) ∧
    (∀ (s : LoopState) (trace : List ((Except SensorError SensorData) × Bool)),
      (∀ p ∈ trace, p.2 = true) → (runLoop s trace).2 = trace.length) ∧
    (∀ (s : LoopState) (pre : List ((Except SensorError SensorData) × Bool))
      (r : Except SensorError SensorData) rest,
      (∀ p ∈ pre, p.2 = true) →
      (runLoop s (pre ++ (r, false) :: rest)).2 = pre.length + 1) :=
  ⟨loopStep_continue, fun s trace h => runLoop_count_all trace s h,
   fun s pre r rest h => runLoop_count_break pre s r rest h⟩

theorem loop_exit_only_on_send_failure_witness :
    (loopStep ⟨SensorData.default 0, SensorData.default 0⟩
      (Except.error (SensorError.ReadError "t")) true).2 = true ∧
    (runLoop ⟨SensorData.default 0, SensorData.default 0⟩
        [(Except.error (SensorError.ReadError "t"), true)]).2 =
      ([(Except.error (SensorError.ReadError "t"), true)] :
        List ((Except SensorError SensorData) × Bool)).length ∧
    (runLoop ⟨SensorData.default 0, SensorData.default 0⟩
        ([(Except.ok (SensorData.default 1), true)] ++
          (Except.error (SensorError.ReadError "t"), false) :: [])).2 =
      ([(Except.ok (SensorData.default 1), true)] :
        List ((Except SensorError SensorData) × Bool)).length + 1 :=
  ⟨loop_exit_only_on_send_failure.1 ⟨SensorData.default 0, SensorData.default 0⟩
      (Except.error (SensorError.ReadError "t")) true,
   loop_exit_only_on_send_failure.2.1 ⟨SensorData.default 0, SensorData.default 0⟩
      [(Except.error (SensorError.ReadError "t"), true)] (by simp),
   loop_exit_only_on_send_failure.2.2 ⟨SensorData.default 0, SensorData.default 0⟩
      [(Except.ok (SensorData.default 1), true)]
      (Except.error (SensorError.ReadError "t")) [] (by simp)⟩

theorem start_error_unchanged (m : SensorManager) (api : Except String HidApi) (e : String)
    (h : (m.start api).2 = .error e) : (m.start api).1 = m := by
  unfold SensorManager.start at h ⊢
  by_cases hen : m.config.enabled = false
  · simp [hen] at h
  · simp only [hen, if_false] at h ⊢
    cases api with
    | error e2 => rfl
    | ok a =>
      cases hfind : find_supported_sensor a with
      | error se => simp [hfind]
      | ok dev => simp [hfind] at h

/-- C8: a disabled configuration makes `start` an immediate no-op
success with no channel wired; `initialize_sensors` always returns a
manager, absorbing a `start` failure by returning the untouched
(permanently disabled) manager; on such a manager `get_latest_data`
returns the all-zero default reading and `try_receive_update` returns
`none`; and before any successful read the loop leaves the snapshot at
the default. -/
theorem disabled_manager_behaviour (config : SensorConfig) (api : Except String HidApi) (t : Nat) :
    (config.enabled = false →
      (SensorManager.new config t).start api = (SensorManager.new config t, .ok ())) ∧
    (∃ m, initialize_sensors config api t = .ok m) ∧
    (∀ e, ((SensorManager.new config t).start api).2 = .error e →
      initialize_sensors config api t = .ok (SensorManager.new config t)) ∧
    ((SensorManager.new config t).get_latest_data = SensorData.default t) ∧
    ((SensorManager.new config t).try_receive_update = none) ∧
    (∀ trace : List ((Except SensorError SensorData) × Bool),
      (∀ p ∈ trace, ∀ d, p.1 ≠ Except.ok d) →
      (runLoop ⟨SensorData.default t, SensorData.default t⟩ trace).1.snapshot =
        SensorData.default t) := by
  refine ⟨?_, ?_, ?_, rfl, rfl, ?_⟩
  · intro h
    simp [SensorManager.start, SensorManager.new, h]
  · by_cases hen : config.enabled = true
    · exact ⟨((SensorManager.new config t).start api).1,
        by simp [initialize_sensors, SensorManager.new, hen]⟩
    · simp only [Bool.not_eq_true] at hen
      exact ⟨SensorManager.new config t, by simp [initialize_sensors, SensorManager.new, hen]⟩
  · intro e h
    have h1 := start_error_unchanged (SensorManager.new config t) api e h
    by_cases hen : config.enabled = true
    · simp only [initialize_sensors]
      rw [if_pos (show (SensorManager.new config t).config.enabled = true from hen)]
      rw [h1]
    · simp only [Bool.not_eq_true] at hen
      simp [initialize_sensors, SensorManager.new, hen]
  · intro trace h
    exact (runLoop_no_ok trace ⟨SensorData.default t, SensorData.default t⟩ rfl h).1

theorem disabled_manager_behaviour_witness :
    (SensorManager.new ⟨false, 100, true⟩ 0).start (.error "down") =
      (SensorManager.new ⟨false, 100, true⟩ 0, .ok ()) ∧
    (∃ m, initialize_sensors ⟨true, 100, true⟩ (.error "down") 0 = .ok m) ∧
    initialize_sensors ⟨true, 100, true⟩ (.error "down") 0 =
      .ok (SensorManager.new ⟨true, 100, true⟩ 0) ∧
    (SensorManager.new ⟨false, 100, true⟩ 0).get_latest_data = SensorData.default 0 ∧
    (SensorManager.new ⟨false, 100, true⟩ 0).try_receive_update = none ∧
    (runLoop ⟨SensorData.default 0, SensorData.default 0⟩
        [(Except.error (SensorError.ReadError "t"), true)]).1.snapshot = SensorData.default 0 :=
  ⟨(disabled_manager_behaviour ⟨false, 100, true⟩ (.error "down") 0).1 rfl,
   (disabled_manager_behaviour ⟨true, 100, true⟩ (.error "down") 0).2.1,
   (disabled_manager_behaviour ⟨true, 100, true⟩ (.error "down") 0).2.2.1
     "Failed to initialize HID API: down" rfl,
   (disabled_manager_behaviour ⟨false, 100, true⟩ (.error "down") 0).2.2.2.1,
   (disabled_manager_behaviour ⟨false, 100, true⟩ (.error "down") 0).2.2.2.2.1,
   (disabled_manager_behaviour ⟨false, 100, true⟩ (.error "down") 0).2.2.2.2.2
     [(Except.error (SensorError.ReadError "t"), true)]
     (by intro p hp d; simp at hp; subst hp; simp)⟩
